import Mathlib

/-!
Verification of the pyreposync core against its specification.

The definitions below are a shallow embedding of the Python sources of the
repository (src/pyreposync/).  Pure string manipulation is translated to
executable Lean functions over `String`/`List Char`; stateful code (the
snapshot store, the downloader's retry loop) is translated to explicit state
passing, event traces, or oracles for the environment (HTTP responses, file
digests).  Every definition is translated from the Python source named in its
doc comment; definitions whose doc comment says so instead follow the
specification's words, for comparison with the source's behaviour.
-/

namespace Pyreposync

/-! ## Python string primitives

Lean's built-in `String.splitOn`, `String.trim`, `String.startsWith` do not
reduce inside the kernel, so the Python string operations used by the sources
are re-implemented here over `List Char` with the exact Python semantics the
sources rely on. -/

/-- Python `s.startswith(pre)`. -/
def py_startswith (s pre : String) : Bool := pre.data.isPrefixOf s.data

/-- Worker for `py_split`: scan left to right; where `sep` occurs, cut.
`fuel` bounds the recursion by the length of the unscanned text. -/
def split_sub_aux (sep : List Char) : Nat → List Char → List Char → List (List Char)
  | _, [], acc => [acc.reverse]
  | 0, xs, acc => [acc.reverse ++ xs]
  | n + 1, x :: xs, acc =>
    if sep.isPrefixOf (x :: xs) then
      acc.reverse :: split_sub_aux sep n (List.drop (sep.length - 1) xs) []
    else
      split_sub_aux sep n xs (x :: acc)

/-- Python `s.split(sep)` for a non-empty separator: split on every
occurrence of the substring `sep`. -/
def py_split (sep s : String) : List String :=
  (split_sub_aux sep.data s.data.length s.data []).map String.mk

/-- Python `s.strip()`: remove whitespace from both ends. -/
def py_strip (s : String) : String :=
  String.mk (((s.data.dropWhile Char.isWhitespace).reverse.dropWhile Char.isWhitespace).reverse)

/-- Python `s.lower()` (ASCII case folding, enough for hex digests). -/
def py_lower (s : String) : String := String.mk (s.data.map Char.toLower)

/-- Python `s[1:]`. -/
def py_drop1 (s : String) : String := String.mk (s.data.drop 1)

/-- Decimal digits to a number; `none` when a character is not a digit or the
string is empty (Python `int` raises `ValueError` there). -/
def digits_to_nat : List Char → Option Nat
  | [] => none
  | cs => cs.foldl (fun acc c => match acc with
      | none => none
      | some n => if c.isDigit then some (n * 10 + (c.toNat - 48)) else none) (some 0)

/-- Python `int(s)` on an already-stripped string: optional sign then decimal
digits; `none` models the `ValueError` raised otherwise. -/
def py_int (s : String) : Option Int :=
  match s.data with
  | '-' :: rest => (digits_to_nat rest).map (fun n => -(n : Int))
  | cs => (digits_to_nat cs).map (fun n => (n : Int))

/-- Python truthiness of an optional string (`None` and `""` are falsy). -/
def truthy_str_opt : Option String → Bool
  | none => false
  | some s => !s.data.isEmpty

/-- Python truthiness of an optional integer (`None` and `0` are falsy). -/
def truthy_int_opt : Option Int → Bool
  | none => false
  | some n => n != 0

/-! ## Downloader (src/pyreposync/downloader.py) -/

namespace Downloader

/-- Outcome of `Downloader.check_hash`: return normally, or raise
`OSRepoSyncHashError`. -/
inductive HashResult
  | ok
  | hashError
deriving DecidableEq, Repr

/-- `Downloader.check_hash` (downloader.py lines 58-78), as a function of the
hex digest `hashlib` computed for the file (always lowercase hex) and the
expected checksum.  The source compares `hasher.hexdigest() == checksum` and
raises `OSRepoSyncHashError` when the strings differ. -/
def check_hash (computed_hexdigest checksum : String) : HashResult :=
  if computed_hexdigest == checksum then HashResult.ok else HashResult.hashError

/-- The comparison as the specification words it (`verify` fails when the
computed hex does not equal the expectation under a case-insensitive
compare); written from the spec, for comparison with `check_hash`. -/
def check_hash_spec (computed_hexdigest checksum : String) : HashResult :=
  if py_lower computed_hexdigest == py_lower checksum then HashResult.ok
  else HashResult.hashError

/-- Outcome of one download attempt (the body of the `while` loop in
`Downloader.get`, downloader.py lines 96-109): the attempt returns, or raises
`requests.exceptions.ConnectionError`, `OSRepoSyncHashError`, or
`OSRepoSyncDownLoadError`. -/
inductive Outcome
  | success
  | connError
  | hashError
  | downloadError
deriving DecidableEq, Repr

/-- Observable result of one call to `Downloader.get`: how many download
attempts ran, how many `time.sleep(10)` calls happened, and whether the call
returned (`true`) or raised `OSRepoSyncDownLoadError` (`false`). -/
structure GetRun where
  attempts : Nat
  sleeps : Nat
  returned : Bool
deriving DecidableEq, Repr

/-- The retry loop of `Downloader.get` (downloader.py lines 94-121):
`retries = 10; while retries >= 0: ...` runs the body for `retries` values
10 down to 0, so `fuel` starts at 11.  `oracle n` is the outcome of the
n-th attempt.  A `ConnectionError` or `OSRepoSyncHashError` decrements the
counter and sleeps 10 seconds; an `OSRepoSyncDownLoadError` breaks; leaving
the loop raises `OSRepoSyncDownLoadError`. -/
def get_loop (oracle : Nat → Outcome) : Nat → Nat → Nat → GetRun
  | 0, attempts, sleeps => GetRun.mk attempts sleeps false
  | fuel + 1, attempts, sleeps =>
    match oracle attempts with
    | Outcome.success => GetRun.mk (attempts + 1) sleeps true
    | Outcome.connError => get_loop oracle fuel (attempts + 1) (sleeps + 1)
    | Outcome.hashError => get_loop oracle fuel (attempts + 1) (sleeps + 1)
    | Outcome.downloadError => GetRun.mk (attempts + 1) sleeps false

/-- `Downloader.get` (downloader.py lines 80-121).  `fs` is the set of paths
that exist as files; per lines 89-92, when `replace` is false and
`destination` is already a file the call returns at once, running no download
attempt; otherwise the retry loop runs. -/
def get (fs : List String) (replace : Bool) (destination : String)
    (oracle : Nat → Outcome) : GetRun :=
  if !replace && fs.contains destination then GetRun.mk 0 0 true
  else get_loop oracle 11 0 0

/-- HTTP status of the server's answer for a URL, as `Downloader._get`
distinguishes them (downloader.py lines 148-158): 200, 404, anything else. -/
inductive Response
  | ok
  | notFound
  | serverError
deriving DecidableEq, Repr

/-- The status-code dispatch of `Downloader._get` (downloader.py lines
148-158) as the outcome of one attempt: 200 succeeds; 404 succeeds silently
exactly when `not_found_ok` is true; every other status — and 404 without
`not_found_ok` — raises `OSRepoSyncDownLoadError`. -/
def attempt_outcome (resp : Response) (not_found_ok : Bool) : Outcome :=
  match resp with
  | Response.ok => Outcome.success
  | Response.notFound => if not_found_ok then Outcome.success else Outcome.downloadError
  | Response.serverError => Outcome.downloadError

end Downloader

/-! ## Snapshot store (src/pyreposync/sync_generic.py) -/

namespace SyncGeneric

/-- The filesystem actions `SyncGeneric.snap` performs in program order
(sync_generic.py lines 68-82): build the snapshot file tree (`self._snap()`),
`os.unlink(latest)`, `os.symlink(current, latest)`, then write the
`timestamp` marker file.  `RPMSync.snap` (rpm_sync.py lines 210-228) and
`DEBSync.snap` (deb_sync.py lines 71-86) perform the same actions in the
same order. -/
inductive SnapEvent
  | snapTree
  | unlinkLatest
  | symlinkLatest
  | writeTimestamp
deriving DecidableEq, Repr

/-- What a concurrent reader of the snapshot store can observe during one
`snap()` run: whether the snapshot file tree is complete, whether `latest`
points at the snapshot being created, and whether its `timestamp` marker
file exists. -/
structure SnapObs where
  tree_done : Bool
  latest_points_current : Bool
  timestamp_written : Bool
deriving DecidableEq, Repr

/-- Effect of one `snap()` action on the observable state. -/
def snap_obs_step (st : SnapObs) (e : SnapEvent) : SnapObs :=
  match e with
  | SnapEvent.snapTree => { st with tree_done := true }
  | SnapEvent.unlinkLatest => { st with latest_points_current := false }
  | SnapEvent.symlinkLatest => { st with latest_points_current := true }
  | SnapEvent.writeTimestamp => { st with timestamp_written := true }

/-- State before `snap()` starts: nothing of the new snapshot exists. -/
def snap_init : SnapObs := SnapObs.mk false false false

/-- The actions of `SyncGeneric.snap` in source order. -/
def snap_events : List SnapEvent :=
  [SnapEvent.snapTree, SnapEvent.unlinkLatest, SnapEvent.symlinkLatest,
   SnapEvent.writeTimestamp]

/-- The observable state after the first `n` actions of `snap()`. -/
def snap_obs_after (n : Nat) : SnapObs :=
  (snap_events.take n).foldl snap_obs_step snap_init

/-- Every observable state during one `snap()` run (the state after each
prefix of the action list; after the last action the state no longer
changes). -/
def snap_states : List SnapObs :=
  (List.range (snap_events.length + 1)).map snap_obs_after

/-- The snapshot directory of one repository, as `snap_cleanup` reads it:
`snaps` are the entries `os.listdir` returns for `snap/<reponame>/` other
than the alias artifacts `latest` and `named`; `latest` is the last path
segment of the target of the `latest` symlink (`none` when the symlink is
missing); `named` maps each alias under `named/` to the last path segment of
its target. -/
structure SnapStore where
  snaps : List String
  latest : Option String
  named : List (String × String)
deriving DecidableEq, Repr

/-- `SyncGeneric.snap_list_get_referenced_timestamps` (sync_generic.py lines
91-106) keyed set: the targets of every `named/<n>` alias and of `latest`.
The Python dict also holds a `None` key when `latest` is missing; a directory
name, being a string, never equals `None`, so only the string keys matter for
the membership test `snap not in referenced_timestamps`. -/
def referenced_timestamps (st : SnapStore) : List String :=
  st.named.map Prod.snd ++ (match st.latest with
    | some t => [t]
    | none => [])

/-- `SyncGeneric.snap_cleanup` (sync_generic.py lines 84-89): for every entry
of `snap_list_timestamp_snapshots()` — the snapshot directory listing minus
`latest` and `named` (lines 121-134) — not in the referenced set,
`shutil.rmtree` it.  The aliases themselves are never touched. -/
def snap_cleanup (st : SnapStore) : SnapStore :=
  { st with snaps := st.snaps.filter (fun s => (referenced_timestamps st).contains s) }

/-- A name of exactly 14 decimal digits (`YYYYMMDDhhmmss`), the timestamp
form the specification's claim restricts cleanup to. -/
def is_timestamp14 (s : String) : Bool :=
  s.data.length == 14 && s.data.all Char.isDigit

/-- Cleanup as the specification words it: remove exactly the directories
whose name is a 14-digit timestamp and that are not referenced; written from
the spec, for comparison with `snap_cleanup`. -/
def snap_cleanup_spec (st : SnapStore) : SnapStore :=
  { st with snaps := st.snaps.filter (fun s =>
      !is_timestamp14 s || (referenced_timestamps st).contains s) }

end SyncGeneric

/-! ## RPM sync (src/pyreposync/sync_rpm.py) -/

namespace SyncRPM

/-- The content-addressed destination `SyncRPM.sync_packages` downloads a
package to (sync_rpm.py line 116):
`<destination>/sync/<reponame>/<location>.<hash_algo>.<hash_sum>`. -/
def content_dest (destination reponame location hash_algo hash_sum : String) : String :=
  destination ++ "/sync/" ++ reponame ++ "/" ++ location ++ "." ++ hash_algo ++ "." ++ hash_sum

/-- `SyncRPM.sync_packages` (sync_rpm.py lines 113-117) on the success path:
for each `(location, hash_algo, hash_sum)` yielded by `packages()`, call
`downloader.get` with `replace=False` on the content-addressed destination.
`get` skips the download when the destination file exists (downloader.py
lines 89-92) and otherwise downloads it there.  Returns the resulting file
set and how many network downloads ran. -/
def sync_packages (destination reponame : String) (fs : List String) :
    List (String × String × String) → List String × Nat
  | [] => (fs, 0)
  | pkg :: rest =>
    let dest := content_dest destination reponame pkg.1 pkg.2.1 pkg.2.2
    if fs.contains dest then sync_packages destination reponame fs rest
    else
      let r := sync_packages destination reponame (dest :: fs) rest
      (r.1, r.2 + 1)

/-- Destination of the treeinfo copy in `SyncRPM.snap_treeinfo` (sync_rpm.py
line 223): the source interpolates `self.destination` where the date belongs:
`<destination>/snap/<reponame>/<destination>/<treeinfo>`. -/
def snap_treeinfo_dst (destination reponame treeinfo : String) : String :=
  destination ++ "/snap/" ++ reponame ++ "/" ++ destination ++ "/" ++ treeinfo

/-- Destination of each file listed in treeinfo in `SyncRPM.snap_treeinfo`
(sync_rpm.py lines 229-231), again interpolating `self.destination`:
`<destination>/snap/<reponame>/<destination>/<location>`. -/
def snap_treeinfo_file_dst (destination reponame location : String) : String :=
  destination ++ "/snap/" ++ reponame ++ "/" ++ destination ++ "/" ++ location

/-- Destination of each repodata file in `SyncRPM.snap_repodata` (sync_rpm.py
line 211): `<destination>/snap/<reponame>/<date>/<location>`. -/
def snap_repodata_file_dst (destination reponame date location : String) : String :=
  destination ++ "/snap/" ++ reponame ++ "/" ++ date ++ "/" ++ location

/-- The snapshot root `<destination>/snap/<reponame>/<date>/` that, per the
specification, every metadata copy must land under. -/
def snapshot_root (destination reponame date : String) : String :=
  destination ++ "/snap/" ++ reponame ++ "/" ++ date ++ "/"

/-- TLS verification setting of the fetcher: `verify=True` (system CA store)
or a CA bundle path (downloader.py lines 37-40). -/
inductive CaVerify
  | system
  | bundle (path : String)
deriving DecidableEq, Repr

/-- The fetcher configuration `Downloader.__init__` builds (downloader.py
lines 15-40). -/
structure DownloaderState where
  basic_auth : Option (String × String)
  proxy : Option (String × String)
  cert : Option (String × String)
  ca_cert : CaVerify
deriving DecidableEq, Repr

/-- `Downloader.__init__` (downloader.py lines 15-40): basic auth only when
user and password are both truthy; a truthy proxy is applied to both `http`
and `https`; a client certificate pair only when cert and key are both
truthy; a truthy `ca_cert` becomes the CA bundle, otherwise `verify=True`. -/
def downloader_init (basic_auth_user basic_auth_pass proxy client_cert client_key
    ca_cert : Option String) : DownloaderState :=
  { basic_auth :=
      match basic_auth_user, basic_auth_pass with
      | some u, some p => if !u.data.isEmpty && !p.data.isEmpty then some (u, p) else none
      | _, _ => none
    proxy :=
      match proxy with
      | some p => if !p.data.isEmpty then some (p, p) else none
      | none => none
    cert :=
      match client_cert, client_key with
      | some c, some k => if !c.data.isEmpty && !k.data.isEmpty then some (c, k) else none
      | _, _ => none
    ca_cert :=
      match ca_cert with
      | some c => if !c.data.isEmpty then CaVerify.bundle c else CaVerify.system
      | none => CaVerify.system }

/-- The state `SyncGeneric.__init__` builds (sync_generic.py lines 10-37):
it stores its fifth positional parameter as `allow_missing_packages` verbatim
(Python is dynamically typed, so the slot holds whatever value the caller
passed there) and forwards the credential parameters to
`Downloader.__init__`. -/
structure SyncGenericState where
  base_url : String
  destination : String
  reponame : String
  date : String
  allow_missing_packages : Option String
  downloader : DownloaderState
deriving DecidableEq, Repr

/-- `SyncGeneric.__init__` with its parameters in declaration order
(sync_generic.py lines 10-37): `(base_url, destination, reponame, date,
allow_missing_packages, basic_auth_user, basic_auth_pass, proxy, client_cert,
client_key, ca_cert)`. -/
def sync_generic_init (base_url destination reponame date : String)
    (allow_missing_packages basic_auth_user basic_auth_pass proxy client_cert
      client_key ca_cert : Option String) : SyncGenericState :=
  { base_url := base_url
    destination := destination
    reponame := reponame
    date := date
    allow_missing_packages := allow_missing_packages
    downloader := downloader_init basic_auth_user basic_auth_pass proxy client_cert
      client_key ca_cert }

/-- The state of a constructed `SyncRPM` job. -/
structure SyncRPMState where
  generic : SyncGenericState
  treeinfo : String
deriving DecidableEq, Repr

/-- `SyncRPM.__init__` (sync_rpm.py lines 17-39): it calls
`super().__init__(base_url, destination, reponame, date, proxy, client_cert,
client_key, ca_cert)` with eight positional arguments, so against the base
signature the fifth positional slot `allow_missing_packages` receives
`proxy`, the sixth and seventh (`basic_auth_user`, `basic_auth_pass`) receive
`client_cert` and `client_key`, the eighth (`proxy`) receives `ca_cert`, and
the remaining parameters (`client_cert`, `client_key`, `ca_cert`) keep their
default `None`. -/
def sync_rpm_init (base_url destination reponame date treeinfo : String)
    (proxy client_cert client_key ca_cert : Option String) : SyncRPMState :=
  { generic := sync_generic_init base_url destination reponame date
      proxy client_cert client_key ca_cert none none none
    treeinfo := treeinfo }

end SyncRPM

/-! ## Debian sync (src/pyreposync/sync_deb822.py) -/

namespace SyncDeb822

open Downloader

/-- The suite-level files `SyncDeb822.sync_release` fetches (sync_deb822.py
line 137). -/
def release_files : List String := ["InRelease", "Release", "Release.gpg"]

/-- `SyncDeb822.sync_release` (sync_deb822.py lines 135-147): fetch
`InRelease`, `Release` and `Release.gpg` in order, each with `replace=True`
and `not_found_ok` left at its default `False`; the first raised
`OSRepoSyncDownLoadError` aborts the suite sync.  `server` maps each release
file name to the HTTP response of its URL; the result is `true` when the
call returns, `false` when it raises. -/
def sync_release (server : String → Response) : Bool :=
  release_files.all (fun f =>
    (get [] true f (fun _ => attempt_outcome (server f) false)).returned)

/-- `SyncDeb822.sync_release_files` (sync_deb822.py lines 189-203): fetch
every file indexed by `Release` with `replace=True` and `not_found_ok=True`.
`indexed` is the list of indexed file names. -/
def sync_release_files (server : String → Response) (indexed : List String) : Bool :=
  indexed.all (fun f =>
    (get [] true f (fun _ => attempt_outcome (server f) true)).returned)

/-- The scanner state of `SyncDeb822.binary_files_sha256` (sync_deb822.py
lines 164-187): the accumulated `packages` dict and the current record's
`sha256`, `filename` and `size` (each `None` initially and after a clear).
`DEBSync.binary_files_sha256` (deb_sync.py lines 197-220) is identical. -/
structure DebState where
  packages : List (String × String × Int)
  sha256 : Option String
  filename : Option String
  size : Option Int
deriving DecidableEq, Repr

/-- Initial scanner state: `packages = dict()`, all three field values
`None`. -/
def deb_init : DebState := DebState.mk [] none none none

/-- Python dict assignment `packages[filename] = value`: replace the value of
an existing key in place, else append the pair. -/
def dict_insert (key : String) (val : String × Int) :
    List (String × String × Int) → List (String × String × Int)
  | [] => [(key, val)]
  | (k, v) :: rest =>
    if k == key then (k, val) :: rest else (k, v) :: dict_insert key val rest

/-- The field-update part of the scanner loop body (sync_deb822.py lines
172-178): lines starting with `SHA256: `, `Filename: ` or `Size: ` set the
corresponding value from `line.split(prefix)[1].strip()`; `Size` is parsed
with `int(...)`, whose `ValueError` on a malformed number (`none` here)
propagates out of the scan. -/
def deb_field_update (st : DebState) (line : String) : Option DebState :=
  if py_startswith line "SHA256: " then
    some { st with sha256 := some (py_strip ((py_split "SHA256: " line).getD 1 "")) }
  else if py_startswith line "Filename: " then
    some { st with filename := some (py_strip ((py_split "Filename: " line).getD 1 "")) }
  else if py_startswith line "Size: " then
    match py_int (py_strip ((py_split "Size: " line).getD 1 "")) with
    | none => none
    | some n => some { st with size := some n }
  else some st

/-- Python truthiness of all three current field values, in the source's
order `filename and sha256 and size`. -/
def all_truthy (st : DebState) : Bool :=
  truthy_str_opt st.filename && truthy_str_opt st.sha256 && truthy_int_opt st.size

/-- One iteration of the scanner loop (sync_deb822.py lines 171-186): update
the field the line carries, then — whenever `filename and sha256 and size`
are all truthy — store `packages[filename] = {sha256, size}` and reset all
three values to `None`. -/
def binary_files_step (st : DebState) (line : String) : Option DebState :=
  match deb_field_update st line with
  | none => none
  | some st2 =>
    match st2.filename, st2.sha256, st2.size with
    | some f, some h, some n =>
      if !f.data.isEmpty && !h.data.isEmpty && n != 0 then
        some (DebState.mk (dict_insert f (h, n) st2.packages) none none none)
      else some st2
    | _, _, _ => some st2

/-- `SyncDeb822.binary_files_sha256` over the decoded lines of
`Packages.gz`: fold the scanner loop over the lines. -/
def binary_files_sha256 (st : DebState) : List String → Option DebState
  | [] => some st
  | l :: rest =>
    match binary_files_step st l with
    | none => none
    | some st2 => binary_files_sha256 st2 rest

end SyncDeb822

/-! ## Tag selection (src/pyreposync/__init__.py) -/

namespace PyRepoSync

/-- The loop of `PyRepoSync.validate_tags` (\_\_init\_\_.py lines 342-350):
for each CLI tag, a negated tag (`!` prefix) present among the section's
tags returns `False`; a non-negated tag absent from the section's tags
returns `False`; surviving every tag returns `True`. -/
def validate_tags_loop : List String → List String → Bool
  | [], _ => true
  | t :: rest, section_tags =>
    if py_startswith t "!" then
      if section_tags.contains (py_drop1 t) then false
      else validate_tags_loop rest section_tags
    else
      if section_tags.contains t then validate_tags_loop rest section_tags
      else false

/-- `PyRepoSync.validate_tags` (\_\_init\_\_.py lines 337-350): when the
section has no `tags` option the `config.get` call raises and the method
returns `False`; otherwise the loop over the CLI tags runs against the
section's comma-split tag list. -/
def validate_tags (cli_tags : List String) : Option (List String) → Bool
  | none => false
  | some section_tags => validate_tags_loop cli_tags section_tags

/-- Tag selection as the specification words it: no negated CLI tag occurs
among the section's tags, and at least one non-negated CLI tag does; written
from the spec, for comparison with `validate_tags`. -/
def validate_tags_spec (cli_tags section_tags : List String) : Bool :=
  cli_tags.all (fun t =>
    !py_startswith t "!" || !section_tags.contains (py_drop1 t)) &&
  cli_tags.any (fun t => !py_startswith t "!" && section_tags.contains t)

end PyRepoSync

/-! ## Theorems -/

open Downloader SyncGeneric SyncRPM SyncDeb822

/-- C1 (counterexample).  In the action order of `SyncGeneric.snap`
(sync_generic.py lines 68-82) the state after the third action —
`os.symlink(current, latest)` — has `latest` pointing at the new snapshot
while its `timestamp` marker file does not exist yet, so the claim that at
no observable point does `latest` point at a snapshot directory lacking its
timestamp file is false. -/
theorem snap_latest_observed_without_timestamp :
    (snap_obs_after 3).latest_points_current = true ∧
    (snap_obs_after 3).timestamp_written = false ∧
    snap_states.all (fun st => !st.latest_points_current || st.timestamp_written) = false := by
  decide

/-- C1 (amended).  `snap()` does complete the snapshot file tree (`_snap()`)
before the `latest` symlink is replaced, but it writes the `timestamp`
marker only after `latest` is replaced: every observable state in which
`latest` points at the new snapshot has the file tree complete, and the
state reached right after the symlink call has `latest` set with the
timestamp file still missing.  `snap_states` covers every observable state
of the run. -/
theorem snap_tree_before_latest_timestamp_after :
    (∀ n : Nat, snap_obs_after n ∈ snap_states) ∧
    snap_states.all (fun st => !st.latest_points_current || st.tree_done) = true ∧
    (snap_obs_after 3).latest_points_current = true ∧
    (snap_obs_after 3).timestamp_written = false := by
  refine ⟨?_, by decide, by decide, by decide⟩
  intro n
  rcases Nat.lt_or_ge n 5 with h | h
  · interval_cases n <;> decide
  · have ht : snap_events.take n = snap_events :=
      List.take_of_length_le (by simp [snap_events]; omega)
    have he : snap_obs_after n = snap_events.foldl snap_obs_step snap_init := by
      rw [snap_obs_after, ht]
    rw [he]
    decide

/-- C2 (counterexample).  `snap_cleanup` performs no 14-digit check: with a
directory `garbage` under `snap/<reponame>/` that no alias references, the
code removes it although its name is not a 14-digit timestamp, so cleanup
does not remove exactly the 14-digit-named unreferenced directories
(`snap_cleanup_spec`, the specification's wording, keeps it). -/
theorem snap_cleanup_removes_non_timestamp_entries :
    (snap_cleanup (SnapStore.mk ["garbage", "20240101000000"]
        (some "20240101000000") [])).snaps = ["20240101000000"] ∧
    (snap_cleanup_spec (SnapStore.mk ["garbage", "20240101000000"]
        (some "20240101000000") [])).snaps = ["garbage", "20240101000000"] ∧
    is_timestamp14 "garbage" = false ∧
    is_timestamp14 "20240101000000" = true := by
  decide

/-- C2 (amended).  `snap_cleanup` removes exactly those entries under
`snap/<reponame>/` other than `latest` and `named` that are not in the
referenced set R — with no restriction to 14-digit timestamp names; after
it runs every remaining entry is in R, the aliases themselves are untouched,
and the target of `latest` and of every named alias that existed as a
directory still exists. -/
theorem snap_cleanup_keeps_exactly_referenced :
    ∀ st : SnapStore,
      (snap_cleanup st).latest = st.latest ∧
      (snap_cleanup st).named = st.named ∧
      (∀ s, s ∈ (snap_cleanup st).snaps →
        (referenced_timestamps st).contains s = true) ∧
      (∀ s, s ∈ st.snaps →
        (s ∈ (snap_cleanup st).snaps ↔ (referenced_timestamps st).contains s = true)) ∧
      (∀ t, st.latest = some t → t ∈ st.snaps → t ∈ (snap_cleanup st).snaps) ∧
      (∀ n t, (n, t) ∈ st.named → t ∈ st.snaps → t ∈ (snap_cleanup st).snaps) := by
  intro st
  refine ⟨rfl, rfl, ?_, ?_, ?_, ?_⟩
  · intro s hs
    exact (List.mem_filter.mp hs).2
  · intro s hs
    exact ⟨fun h => (List.mem_filter.mp h).2, fun h => List.mem_filter.mpr ⟨hs, h⟩⟩
  · intro t hl ht
    refine List.mem_filter.mpr ⟨ht, List.elem_iff.mpr ?_⟩
    simp [referenced_timestamps, hl]
  · intro n t hn ht
    refine List.mem_filter.mpr ⟨ht, List.elem_iff.mpr ?_⟩
    have : t ∈ st.named.map Prod.snd := List.mem_map.mpr ⟨(n, t), hn, rfl⟩
    simp [referenced_timestamps, this]

/-- C4 (code bug).  `SyncRPM.snap_treeinfo` (sync_rpm.py lines 220-238)
interpolates `self.destination` where the snapshot date belongs: with
destination `/srv`, repository `demo` and snapshot date `20240101000000`,
the treeinfo file and every file listed inside it are copied to
`/srv/snap/demo//srv/…`, which is not under the snapshot root
`/srv/snap/demo/20240101000000/`, while `snap_repodata` (lines 199-218)
correctly copies under the snapshot root. -/
theorem snap_treeinfo_copies_outside_snapshot_root :
    snap_treeinfo_dst "/srv" "demo" ".treeinfo" = "/srv/snap/demo//srv/.treeinfo" ∧
    py_startswith (snap_treeinfo_dst "/srv" "demo" ".treeinfo")
      (snapshot_root "/srv" "demo" "20240101000000") = false ∧
    py_startswith (snap_treeinfo_file_dst "/srv" "demo" "images/pxeboot/vmlinuz")
      (snapshot_root "/srv" "demo" "20240101000000") = false ∧
    py_startswith (snap_repodata_file_dst "/srv" "demo" "20240101000000" "repodata/repomd.xml")
      (snapshot_root "/srv" "demo" "20240101000000") = true := by
  decide

/-- C6 (counterexample).  `check_hash` compares the computed hex digest to
the expected checksum with exact string equality, not case-insensitively:
for the empty file, whose md5 hex digest is
`d41d8cd98f00b204e9800998ecf8427e`, an expected checksum given in uppercase
raises `OSRepoSyncHashError` although the two are equal under the
case-insensitive comparison the claim states (`check_hash_spec`). -/
theorem check_hash_rejects_uppercase_checksum :
    check_hash "d41d8cd98f00b204e9800998ecf8427e"
      "D41D8CD98F00B204E9800998ECF8427E" = HashResult.hashError ∧
    check_hash_spec "d41d8cd98f00b204e9800998ecf8427e"
      "D41D8CD98F00B204E9800998ECF8427E" = HashResult.ok := by
  decide

/-- C6 (amended).  `check_hash` succeeds exactly when the computed hex
digest (lowercase, as `hashlib.hexdigest` returns it) is string-equal to the
expected checksum, and raises `OSRepoSyncHashError` exactly when the two
strings differ — a case-sensitive comparison. -/
theorem check_hash_iff_string_equal :
    ∀ computed checksum : String,
      (check_hash computed checksum = HashResult.ok ↔ computed = checksum) ∧
      (check_hash computed checksum = HashResult.hashError ↔ computed ≠ checksum) := by
  intro c k
  by_cases h : c = k
  · subst h
    simp [check_hash]
  · have hb : (c == k) = false := beq_eq_false_iff_ne.mpr h
    simp [check_hash, hb, h]

/-- C8 (code bug).  Constructing a `SyncRPM` job with a proxy, client
certificate, client key and CA bundle yields a fetcher whose basic auth is
the certificate/key pair, whose proxy map applies the CA bundle path to both
`http` and `https`, whose TLS client pair is unset and whose verification is
the system default — and the proxy URL lands in `allow_missing_packages` —
because `SyncRPM.__init__` passes its arguments positionally into the wrong
parameters of `SyncGeneric.__init__`. -/
theorem sync_rpm_init_miswires_fetcher_credentials :
    (sync_rpm_init "http://mirror.example/os/" "/srv/repo" "demo" "20240101000000"
        ".treeinfo" (some "http://proxy.example:3128") (some "/etc/pki/client.pem")
        (some "/etc/pki/client.key") (some "/etc/pki/ca.pem")).generic.downloader.basic_auth
      = some ("/etc/pki/client.pem", "/etc/pki/client.key") ∧
    (sync_rpm_init "http://mirror.example/os/" "/srv/repo" "demo" "20240101000000"
        ".treeinfo" (some "http://proxy.example:3128") (some "/etc/pki/client.pem")
        (some "/etc/pki/client.key") (some "/etc/pki/ca.pem")).generic.downloader.proxy
      = some ("/etc/pki/ca.pem", "/etc/pki/ca.pem") ∧
    (sync_rpm_init "http://mirror.example/os/" "/srv/repo" "demo" "20240101000000"
        ".treeinfo" (some "http://proxy.example:3128") (some "/etc/pki/client.pem")
        (some "/etc/pki/client.key") (some "/etc/pki/ca.pem")).generic.downloader.cert
      = none ∧
    (sync_rpm_init "http://mirror.example/os/" "/srv/repo" "demo" "20240101000000"
        ".treeinfo" (some "http://proxy.example:3128") (some "/etc/pki/client.pem")
        (some "/etc/pki/client.key") (some "/etc/pki/ca.pem")).generic.downloader.ca_cert
      = CaVerify.system ∧
    (sync_rpm_init "http://mirror.example/os/" "/srv/repo" "demo" "20240101000000"
        ".treeinfo" (some "http://proxy.example:3128") (some "/etc/pki/client.pem")
        (some "/etc/pki/client.key") (some "/etc/pki/ca.pem")).generic.allow_missing_packages
      = some "http://proxy.example:3128" := by
  decide

/-- Exhausting the retry loop: when every attempt fails with a retryable
error (`ConnectionError` or `OSRepoSyncHashError`), the loop runs once per
fuel unit, sleeping after each failed attempt, and then raises. -/
theorem get_loop_all_retryable (oracle : Nat → Outcome)
    (h : ∀ n, oracle n = Outcome.connError ∨ oracle n = Outcome.hashError) :
    ∀ fuel attempts sleeps, get_loop oracle fuel attempts sleeps =
      GetRun.mk (attempts + fuel) (sleeps + fuel) false := by
  intro fuel
  induction fuel with
  | zero => intro a s; simp [get_loop]
  | succ m ih =>
    intro a s
    rcases h a with hc | hc <;>
      simp only [get_loop, hc, ih] <;>
      exact congrArg₂ (fun x y => GetRun.mk x y false) (by omega) (by omega)

/-- The retry loop never runs more attempts than it has fuel. -/
theorem get_loop_attempts_le (oracle : Nat → Outcome) :
    ∀ fuel attempts sleeps, (get_loop oracle fuel attempts sleeps).attempts ≤ attempts + fuel := by
  intro fuel
  induction fuel with
  | zero => intro a s; simp [get_loop]
  | succ m ih =>
    intro a s
    simp only [get_loop]
    cases oracle a
    · simp
    · exact le_trans (ih (a + 1) (s + 1)) (by omega)
    · exact le_trans (ih (a + 1) (s + 1)) (by omega)
    · simp

/-- With `replace=True` the existence pre-check of `Downloader.get` is
skipped and the retry loop always runs. -/
theorem get_replace_true (fs : List String) (dest : String) (oracle : Nat → Outcome) :
    Downloader.get fs true dest oracle = get_loop oracle 11 0 0 := by
  simp [Downloader.get]

/-- C5 (counterexample).  With every attempt failing on a transport error,
`Downloader.get` attempts the download 11 times — `retries = 10` and
`while retries >= 0` give one initial attempt plus ten retries — so the
download is not attempted at most 10 times for transport errors; the same
single counter is all the budget hash mismatches get. -/
theorem get_eleven_attempts_on_transport_errors :
    (get [] true "Packages/a.rpm" (fun _ => Outcome.connError)).attempts = 11 ∧
    ¬(get [] true "Packages/a.rpm" (fun _ => Outcome.connError)).attempts ≤ 10 ∧
    (get [] true "Packages/a.rpm" (fun _ => Outcome.connError)).sleeps = 11 ∧
    (get [] true "Packages/a.rpm" (fun _ => Outcome.connError)).returned = false := by
  decide

/-- C5 (amended).  `Downloader.get` bounds its retry loop by one shared
counter: at most 11 total attempts whatever the mix of connection errors and
hash mismatches, a 10-second sleep after each retryable failure, and
`OSRepoSyncDownLoadError` raised once the budget is exhausted — shown for
the all-connection-error and all-hash-mismatch runs and for every oracle
whose attempts all fail retryably. -/
theorem get_retry_budget_shared_eleven :
    (∀ (oracle : Nat → Outcome) (fs : List String) (replace : Bool) (dest : String),
      (get fs replace dest oracle).attempts ≤ 11) ∧
    get_loop (fun _ => Outcome.connError) 11 0 0 = GetRun.mk 11 11 false ∧
    get_loop (fun _ => Outcome.hashError) 11 0 0 = GetRun.mk 11 11 false ∧
    (∀ oracle : Nat → Outcome,
      (∀ n, oracle n = Outcome.connError ∨ oracle n = Outcome.hashError) →
        get_loop oracle 11 0 0 = GetRun.mk 11 11 false) := by
  refine ⟨?_, by decide, by decide, ?_⟩
  · intro oracle fs replace dest
    simp only [Downloader.get]
    by_cases h : (!replace && fs.contains dest) = true
    · rw [if_pos h]
      simp
    · rw [if_neg h]
      simpa using get_loop_attempts_le oracle 11 0 0
  · intro oracle h
    have := get_loop_all_retryable oracle h 11 0 0
    simpa using this

/-- C3 (counterexample).  `SyncDeb822.sync_release` fetches `Release.gpg`
with `not_found_ok` left at its default `False`: when the server answers
HTTP 404 for `Release.gpg` and 200 for `InRelease` and `Release`, the fetch
raises `OSRepoSyncDownLoadError` and the suite sync fails instead of
succeeding as the claim states. -/
theorem sync_release_fails_on_404_release_gpg :
    sync_release (fun f =>
      if f == "Release.gpg" then Response.notFound else Response.ok) = false := by
  decide

/-- C3 (amended).  `sync_release` fetches `InRelease`, `Release` and
`Release.gpg` all without tolerating a missing file, so an HTTP 404 on
`Release.gpg` aborts the suite sync with `OSRepoSyncDownLoadError`; the
suite sync succeeds when all three release files are served, and it is the
files indexed by `Release` (`sync_release_files`) that are fetched with
`tolerate_missing=true`, surviving any 404 among them. -/
theorem sync_release_gpg_not_tolerated :
    sync_release (fun f =>
      if f == "Release.gpg" then Response.notFound else Response.ok) = false ∧
    (∀ server : String → Response,
      (∀ f ∈ release_files, server f = Response.ok) → sync_release server = true) ∧
    (∀ (server : String → Response) (indexed : List String),
      (∀ f ∈ indexed, server f = Response.ok ∨ server f = Response.notFound) →
        sync_release_files server indexed = true) := by
  refine ⟨by decide, ?_, ?_⟩
  · intro server h
    have h1 := h "InRelease" (by simp [release_files])
    have h2 := h "Release" (by simp [release_files])
    have h3 := h "Release.gpg" (by simp [release_files])
    simp only [sync_release, release_files, List.all_cons, List.all_nil, h1, h2, h3]
    decide
  · intro server indexed h
    induction indexed with
    | nil => simp [sync_release_files]
    | cons f rest ih =>
      have hf := h f (by simp)
      have hrest : ∀ g ∈ rest, server g = Response.ok ∨ server g = Response.notFound :=
        fun g hg => h g (by simp [hg])
      have hr := ih hrest
      have hone : (Downloader.get [] true f
          (fun _ => attempt_outcome (server f) true)).returned = true := by
        rcases hf with hf | hf <;> simp only [hf, get_replace_true] <;> decide
      simp only [sync_release_files, List.all_cons] at hr ⊢
      simp [hone, hr]

/-- The loop of `validate_tags` succeeds exactly when every CLI tag passes:
each negated tag is absent from the section's tags and each non-negated tag
is present. -/
theorem validate_tags_loop_iff :
    ∀ cli_tags section_tags : List String,
      PyRepoSync.validate_tags_loop cli_tags section_tags = true ↔
        ∀ t ∈ cli_tags,
          (py_startswith t "!" = true → section_tags.contains (py_drop1 t) = false) ∧
          (py_startswith t "!" = false → section_tags.contains t = true) := by
  intro cli ts
  induction cli with
  | nil => simp [PyRepoSync.validate_tags_loop]
  | cons t rest ih =>
    simp only [PyRepoSync.validate_tags_loop, List.forall_mem_cons]
    cases hb : py_startswith t "!" <;>
      cases hc : ts.contains (py_drop1 t) <;>
      cases hd : ts.contains t <;>
      simp [hb, hc, hd, ih]

/-- C7 (counterexample).  `validate_tags` requires every non-negated CLI
tag to match: with `--tags a,b` a section whose tags are exactly `a` — it
matches some but not all non-negated tags — is rejected by the code,
although under the claim's rule (`validate_tags_spec`: no negated match and
at least one non-negated match) it would be selected. -/
theorem validate_tags_rejects_partial_match :
    PyRepoSync.validate_tags ["a", "b"] (some ["a"]) = false ∧
    PyRepoSync.validate_tags_spec ["a", "b"] ["a"] = true := by
  decide

/-- C7 (amended).  A section is selected iff it has a `tags` option, no
negated CLI tag appears among its tags, and every non-negated CLI tag
appears among its tags; a section with no `tags` option is never selected,
and a CLI list of only negated tags selects a tagged section none of whose
tags is negated away. -/
theorem validate_tags_all_nonnegated_must_match :
    (∀ cli_tags : List String, PyRepoSync.validate_tags cli_tags none = false) ∧
    (∀ cli_tags section_tags : List String,
      PyRepoSync.validate_tags cli_tags (some section_tags) = true ↔
        ∀ t ∈ cli_tags,
          (py_startswith t "!" = true → section_tags.contains (py_drop1 t) = false) ∧
          (py_startswith t "!" = false → section_tags.contains t = true)) ∧
    PyRepoSync.validate_tags ["!x"] (some ["y"]) = true ∧
    PyRepoSync.validate_tags ["a", "b"] (some ["a"]) = false := by
  exact ⟨fun _ => rfl, fun cli ts => validate_tags_loop_iff cli ts, by decide, by decide⟩

/-- A file present before `sync_packages` is still present after it: the
loop only adds content-addressed files. -/
theorem sync_packages_mem_mono (destination reponame x : String) :
    ∀ (pkgs : List (String × String × String)) (fs : List String),
      x ∈ fs → x ∈ (sync_packages destination reponame fs pkgs).1 := by
  intro pkgs
  induction pkgs with
  | nil => intro fs h; simpa [sync_packages] using h
  | cons pkg rest ih =>
    intro fs h
    simp only [sync_packages]
    by_cases hc : fs.contains (content_dest destination reponame pkg.1 pkg.2.1 pkg.2.2) = true
    · rw [if_pos hc]; exact ih fs h
    · rw [if_neg hc]; exact ih _ (List.mem_cons_of_mem _ h)

/-- After `sync_packages`, the content-addressed destination of every
declared package exists. -/
theorem sync_packages_mem_dest (destination reponame : String) :
    ∀ (pkgs : List (String × String × String)) (fs : List String)
      (pkg : String × String × String), pkg ∈ pkgs →
      content_dest destination reponame pkg.1 pkg.2.1 pkg.2.2
        ∈ (sync_packages destination reponame fs pkgs).1 := by
  intro pkgs
  induction pkgs with
  | nil => intro fs pkg h; cases h
  | cons q rest ih =>
    intro fs pkg h
    rcases List.mem_cons.mp h with h | h
    · subst h
      simp only [sync_packages]
      by_cases hc : fs.contains (content_dest destination reponame pkg.1 pkg.2.1 pkg.2.2) = true
      · rw [if_pos hc]
        exact sync_packages_mem_mono destination reponame _ rest fs (List.elem_iff.mp hc)
      · rw [if_neg hc]
        exact sync_packages_mem_mono destination reponame _ rest _ (List.mem_cons_self _ _)
    · simp only [sync_packages]
      by_cases hc : fs.contains (content_dest destination reponame q.1 q.2.1 q.2.2) = true
      · rw [if_pos hc]; exact ih fs pkg h
      · rw [if_neg hc]; exact ih _ pkg h

/-- When every declared package's content-addressed destination already
exists, `sync_packages` downloads nothing and leaves the file set as it
is. -/
theorem sync_packages_all_present (destination reponame : String) :
    ∀ (pkgs : List (String × String × String)) (fs : List String),
      (∀ pkg ∈ pkgs,
        fs.contains (content_dest destination reponame pkg.1 pkg.2.1 pkg.2.2) = true) →
      sync_packages destination reponame fs pkgs = (fs, 0) := by
  intro pkgs
  induction pkgs with
  | nil => intro fs _; rfl
  | cons q rest ih =>
    intro fs h
    have hq := h q (List.mem_cons_self _ _)
    simp only [sync_packages]
    rw [if_pos hq]
    exact ih fs (fun pkg hp => h pkg (List.mem_cons_of_mem _ hp))

/-- C9.  `Downloader.get` with `replace=False` returns at once — no attempt,
no sleep — whenever the destination file already exists (downloader.py lines
89-92); and since `SyncRPM.sync_packages` downloads every declared package
to its content-addressed destination, a second `sync_packages` run over the
same declared package list performs zero downloads. -/
theorem sync_packages_second_run_downloads_nothing :
    ∀ (destination reponame : String) (fs : List String)
      (pkgs : List (String × String × String)),
      (∀ (dest : String) (oracle : Nat → Outcome), fs.contains dest = true →
        Downloader.get fs false dest oracle = GetRun.mk 0 0 true) ∧
      (sync_packages destination reponame
        (sync_packages destination reponame fs pkgs).1 pkgs).2 = 0 := by
  intro destination reponame fs pkgs
  constructor
  · intro dest oracle h
    have hm : dest ∈ fs := List.elem_iff.mp h
    simp [Downloader.get, hm]
  · have hall : ∀ pkg ∈ pkgs,
        ((sync_packages destination reponame fs pkgs).1).contains
          (content_dest destination reponame pkg.1 pkg.2.1 pkg.2.2) = true :=
      fun pkg hp => List.elem_iff.mpr (sync_packages_mem_dest destination reponame pkgs fs pkg hp)
    rw [sync_packages_all_present destination reponame pkgs _ hall]

/-- The field update of the `Packages.gz` scanner never touches the
accumulated `packages` dict. -/
theorem deb_field_update_packages (st : DebState) (line : String) :
    ∀ st2, deb_field_update st line = some st2 → st2.packages = st.packages := by
  intro st2 h
  simp only [deb_field_update] at h
  split at h
  · exact (Option.some_inj.mp h) ▸ rfl
  · split at h
    · exact (Option.some_inj.mp h) ▸ rfl
    · split at h
      · split at h
        · cases h
        · exact (Option.some_inj.mp h) ▸ rfl
      · exact (Option.some_inj.mp h) ▸ rfl

/-- C10.  The `Packages.gz` scanner emits an entry exactly at the first
point where `SHA256`, `Filename` and `Size` are all set and truthy and then
clears all three — after any step the three values are never all truthy —
and for a record whose `Size` is 0 the step beyond the field update does
nothing: no entry is emitted and nothing is cleared, so the record's
`SHA256` and `Filename` survive into the next record's scan, as the two
concrete scans show (the `Size: 0` record of `pkg-a` leaves `packages`
empty with `aa11` and `pool/a.deb` still held; scanning on through `pkg-b`
emits only `pool/b.deb`). -/
theorem binary_files_sha256_emits_on_truthy_then_clears :
    (∀ (st : DebState) (line : String) (st2 : DebState),
      binary_files_step st line = some st2 → all_truthy st2 = false) ∧
    (∀ (st : DebState) (line : String) (st2 : DebState),
      binary_files_step st line = some st2 → st2.size = some 0 →
        binary_files_step st line = deb_field_update st line ∧
        st2.packages = st.packages) ∧
    binary_files_sha256 deb_init
      ["Package: pkg-a", "Installed-Size: 10", "SHA256: aa11",
       "Filename: pool/a.deb", "Size: 0", ""] =
      some (DebState.mk [] (some "aa11") (some "pool/a.deb") (some 0)) ∧
    binary_files_sha256 deb_init
      ["Package: pkg-a", "Installed-Size: 10", "SHA256: aa11",
       "Filename: pool/a.deb", "Size: 0", "", "Package: pkg-b",
       "SHA256: bb22", "Filename: pool/b.deb", "Size: 42", ""] =
      some (DebState.mk [("pool/b.deb", "bb22", 42)] none none none) := by
  refine ⟨?_, ?_, by decide, by decide⟩
  · intro st line st2 h
    rcases e : deb_field_update st line with _ | st2u
    · simp only [binary_files_step, e] at h
      exact Option.noConfusion h
    · simp only [binary_files_step, e] at h
      cases hf : st2u.filename with
      | none =>
        simp only [hf] at h
        cases Option.some_inj.mp h
        simp [all_truthy, truthy_str_opt, hf]
      | some f =>
        cases hh : st2u.sha256 with
        | none =>
          simp only [hf, hh] at h
          cases Option.some_inj.mp h
          simp [all_truthy, truthy_str_opt, hh]
        | some hsh =>
          cases hn : st2u.size with
          | none =>
            simp only [hf, hh, hn] at h
            cases Option.some_inj.mp h
            simp [all_truthy, truthy_int_opt, hn]
          | some n =>
            simp only [hf, hh, hn] at h
            by_cases hc : (!f.data.isEmpty && !hsh.data.isEmpty && n != 0) = true
            · rw [if_pos hc] at h
              cases Option.some_inj.mp h
              simp [all_truthy, truthy_str_opt]
            · rw [if_neg hc] at h
              cases Option.some_inj.mp h
              simp only [all_truthy, truthy_str_opt, truthy_int_opt, hf, hh, hn]
              simpa using hc
  · intro st line st2 h hsize
    rcases e : deb_field_update st line with _ | st2u
    · simp only [binary_files_step, e] at h
      exact Option.noConfusion h
    · have hstep := h
      simp only [binary_files_step, e] at hstep
      have hpk := deb_field_update_packages st line st2u e
      cases hf : st2u.filename with
      | none =>
        simp only [hf] at hstep
        cases Option.some_inj.mp hstep
        exact ⟨h, hpk⟩
      | some f =>
        cases hh : st2u.sha256 with
        | none =>
          simp only [hf, hh] at hstep
          cases Option.some_inj.mp hstep
          exact ⟨h, hpk⟩
        | some hsh =>
          cases hn : st2u.size with
          | none =>
            simp only [hf, hh, hn] at hstep
            cases Option.some_inj.mp hstep
            exact ⟨h, hpk⟩
          | some n =>
            simp only [hf, hh, hn] at hstep
            by_cases hc : (!f.data.isEmpty && !hsh.data.isEmpty && n != 0) = true
            · rw [if_pos hc] at hstep
              cases Option.some_inj.mp hstep
              exact Option.noConfusion hsize
            · rw [if_neg hc] at hstep
              cases Option.some_inj.mp hstep
              exact ⟨h, hpk⟩

end Pyreposync
